import Mathlib

/-!
Shallow embedding of the Tweepify campaign manager's background-job core
(src/TweetCampaigner/): the ScheduledTweet data model (models.py), the
publish task schedule_tweet_task and the maintenance task cleanup_old_data
(tasks.py), the campaign batch scheduler and pause/resume operations
(services/campaign_service.py), and the analytics upsert
(services/analytics_service.py).

Modelling conventions:
* timestamps are integers (seconds); nullable DB columns are Option;
* Python float arithmetic on engagement rates is modelled exactly over ℚ;
* the Celery runtime is modelled explicitly: the body of a task may raise
  an exception (a TaskExc value); `raise self.retry(countdown=c)` raises
  celery.exceptions.Retry, which is a subclass of Exception, so a
  surrounding `except Exception` clause catches it; a retry is actually
  scheduled by the framework only when the Retry exception escapes the
  task function.
-/

/-- The status column of models.ScheduledTweet:
scheduled, posted, failed, cancelled. -/
inductive Status where
  | scheduled
  | posted
  | failed
  | cancelled
deriving DecidableEq, Repr

/-- models.ScheduledTweet (models.py lines 54-64). -/
structure ScheduledTweet where
  content : String
  scheduled_time : Int
  status : Status
  tweet_id : Option String
  error_message : Option String
  created_at : Int
  posted_at : Option Int
  user_id : Nat
  campaign_id : Option Nat
deriving DecidableEq, Repr

/-- A freshly constructed ScheduledTweet: routes.py line 192 and
campaign_service.py line 99 pass only content, scheduled_time, user_id and
campaign_id; the columns status, tweet_id, error_message, posted_at take
their model defaults. -/
def mkScheduledTweet (content : String) (scheduled_time : Int) (created_at : Int)
    (user_id : Nat) (campaign_id : Option Nat) : ScheduledTweet :=
  { content := content
    scheduled_time := scheduled_time
    status := Status.scheduled
    tweet_id := none
    error_message := none
    created_at := created_at
    posted_at := none
    user_id := user_id
    campaign_id := campaign_id }

/-- models.User, restricted to what the publish task reads. -/
structure User where
  id : Nat
  twitter_access_token : Option String
  twitter_access_token_secret : Option String
deriving DecidableEq, Repr

/-- Python truthiness of an optional string column: None and the empty
string are falsy. -/
def pyTruthy : Option String → Bool
  | none => false
  | some s => !s.isEmpty

/-- User.has_twitter_auth (models.py line 25):
`self.twitter_access_token and self.twitter_access_token_secret`. -/
def User.has_twitter_auth (u : User) : Bool :=
  pyTruthy u.twitter_access_token && pyTruthy u.twitter_access_token_secret

/-- Outcome of twitter_service.post_tweet: it returns the new tweet id, or
raises an exception (twitter_service.py lines 55-84). -/
inductive PublishResult where
  | success (tweet_id : String)
  | failure (err : String)
deriving DecidableEq, Repr

/-- An exception escaping the task body (tasks.py): only
celery.exceptions.Retry, raised by `raise self.retry(countdown=...)` (a
subclass of Exception), ever escapes the body — every other exception
inside the inner try (tasks.py line 53) is caught by the inner except
(lines 76-83), which itself ends in the Retry raise. -/
inductive TaskExc where
  | retry (countdown : Nat)
deriving DecidableEq, Repr

/-- Observable side effects of one execution of schedule_tweet_task, in
program order: `commit t` is a db.session.commit() that persists the tweet
record t; `enqueueAnalytics tid uid cid cd` is the successful
collect_tweet_analytics.apply_async call with countdown cd; `retryRaised c` records that
`raise self.retry(countdown=c)` was executed. -/
inductive TEvent where
  | commit (t : ScheduledTweet)
  | enqueueAnalytics (tweet_id : String) (user_id : Nat) (campaign_id : Option Nat)
      (countdown : Nat)
  | retryRaised (countdown : Nat)
deriving DecidableEq, Repr

/-- The environment of one execution of schedule_tweet_task: the fetched
tweet row (none if the id is unknown), the fetched user row, the result of
twitter_service.validate_credentials, the outcome of
twitter_service.post_tweet, the message of the exception raised by
collect_tweet_analytics.apply_async if it raises (e.g. the broker is
down; none if the enqueue succeeds), the current time, and
self.request.retries. -/
structure TaskInput where
  tweet : Option ScheduledTweet
  user : Option User
  credsValid : Bool
  publish : PublishResult
  enqueueError : Option String
  now : Int
  retries : Nat
deriving DecidableEq, Repr

/-- Result of running the body inside the outer try of
schedule_tweet_task: events in program order, the tweet row as last
committed (none when the row was not found), and the exception escaping
the body, if any. -/
structure BodyRun where
  events : List TEvent
  finalTweet : Option ScheduledTweet
  raised : Option TaskExc
deriving DecidableEq, Repr

/-- Result of the whole task as the Celery framework sees it:
retryEscaped is the countdown of a celery Retry exception that escaped the
task function (the only way a retry gets scheduled). -/
structure TaskRun where
  events : List TEvent
  finalTweet : Option ScheduledTweet
  retryEscaped : Option Nat
deriving DecidableEq, Repr

/-- The body of schedule_tweet_task (tasks.py lines 20-83): everything
inside the outer try. Follows the source branch by branch. -/
def scheduleTweetTaskBody (inp : TaskInput) : BodyRun :=
  match inp.tweet with
  | none =>
      -- lines 23-25: row not found, log and return
      ⟨[], none, none⟩
  | some t =>
      if t.status ≠ Status.scheduled then
        -- lines 28-30: already posted/cancelled/failed, skip
        ⟨[], some t, none⟩
      else
        match inp.user with
        | none =>
            -- lines 33-39: user missing
            let t1 := { t with status := Status.failed,
                               error_message := some "Twitter authentication required" }
            ⟨[TEvent.commit t1], some t1, none⟩
        | some u =>
            if ¬ u.has_twitter_auth then
              -- lines 33-39: user lacks Twitter auth
              let t1 := { t with status := Status.failed,
                                 error_message := some "Twitter authentication required" }
              ⟨[TEvent.commit t1], some t1, none⟩
            else if ¬ inp.credsValid then
              -- lines 42-50: invalid credentials
              let t1 := { t with status := Status.failed,
                                 error_message := some "Invalid Twitter credentials" }
              ⟨[TEvent.commit t1], some t1, none⟩
            else
              match inp.publish with
              | PublishResult.success tid =>
                  -- lines 60-66: record success and commit
                  let t1 := { t with status := Status.posted,
                                     tweet_id := some tid,
                                     posted_at := some inp.now,
                                     error_message := none }
                  match inp.enqueueError with
                  | some msg =>
                      -- lines 69-72: apply_async raises after the commit.
                      -- The call is inside the inner try (line 53), so the
                      -- inner except (76-83) catches it: status='failed' and
                      -- error_message are set (tweet_id and posted_at keep
                      -- the values committed at line 66), committed again,
                      -- then raise self.retry(countdown=60 * 2 ** retries)
                      let t2 := { t1 with status := Status.failed,
                                          error_message := some msg }
                      ⟨[TEvent.commit t1, TEvent.commit t2,
                        TEvent.retryRaised (60 * 2 ^ inp.retries)],
                       some t2, some (TaskExc.retry (60 * 2 ^ inp.retries))⟩
                  | none =>
                      -- lines 69-72: analytics job enqueued with countdown=300
                      ⟨[TEvent.commit t1,
                        TEvent.enqueueAnalytics tid u.id t.campaign_id 300],
                       some t1, none⟩
              | PublishResult.failure err =>
                  -- lines 76-83: record failure, commit, then
                  -- raise self.retry(countdown=60 * (2 ** self.request.retries))
                  let t1 := { t with status := Status.failed,
                                     error_message := some err }
                  ⟨[TEvent.commit t1, TEvent.retryRaised (60 * 2 ^ inp.retries)],
                   some t1, some (TaskExc.retry (60 * 2 ^ inp.retries))⟩

/-- schedule_tweet_task (tasks.py lines 16-88). The outer
`except Exception: return` (lines 85-88) catches every exception raised by
the body — including celery.exceptions.Retry, which subclasses Exception —
and returns normally, so no exception ever escapes to the framework and
retryEscaped is none on every path. -/
def schedule_tweet_task (inp : TaskInput) : TaskRun :=
  let b := scheduleTweetTaskBody inp
  match b.raised with
  | some _ => ⟨b.events, b.finalTweet, none⟩
  | none => ⟨b.events, b.finalTweet, none⟩

/-- One tweet placed by the campaign batch scheduler
(campaign_service.py lines 88-110): content, day offset from start_date,
the hour set by current_date.replace(hour=hour_offset, minute=0,
second=0), and the loop index i within the day (the slot). -/
structure CampaignPost where
  content : String
  day : Nat
  hour : Nat
  slot : Nat
deriving DecidableEq, Repr

/-- hour_offset = (i + 1) * (24 // (frequency + 1))
(campaign_service.py line 95). -/
def hourOffset (frequency i : Nat) : Nat :=
  (i + 1) * (24 / (frequency + 1))

/-- The inner for-loop of schedule_campaign_tweets for one day
(campaign_service.py lines 90-108): for i in range(frequency), stopping
as soon as content_index reaches len(tweet_contents); each iteration
consumes the next content. -/
def scheduleDayPosts (frequency day : Nat) (contents : List String) : List CampaignPost :=
  (contents.take frequency).enum.map
    (fun p => ⟨p.2, day, hourOffset frequency p.1, p.1⟩)

/-- The while-loop of schedule_campaign_tweets (campaign_service.py lines
88-110): one recursive step per day in the range, stopping when the days
run out or the remaining contents are exhausted. -/
def scheduleLoop (frequency day daysLeft : Nat) (contents : List String) : List CampaignPost :=
  match daysLeft with
  | 0 => []
  | n + 1 =>
      if contents.isEmpty then []
      else scheduleDayPosts frequency day contents ++
           scheduleLoop frequency (day + 1) n (contents.drop frequency)

/-- CampaignService.schedule_campaign_tweets (campaign_service.py lines
65-118), given the generated contents: if no content was generated the
function raises (line 80-81; the outer except at 115-118 rolls back and
re-raises Exception("Failed to schedule tweets"), leaving the store
unchanged); otherwise the loop adds its posts to the store and the count
is returned. totalDays = (end_date - start_date).days + 1. -/
def schedule_campaign_tweets (frequency totalDays : Nat) (contents : List String)
    (store : List CampaignPost) : List CampaignPost × Except String Nat :=
  if contents.isEmpty then
    (store, Except.error "Failed to schedule tweets")
  else
    let posts := scheduleLoop frequency 0 totalDays contents
    (store ++ posts, Except.ok posts.length)

/-- CampaignService.pause_campaign, restricted to its effect on the
ScheduledTweet rows (campaign_service.py lines 265-271): every row of the
campaign with status 'scheduled' is set to 'cancelled'; no other row and
no other column changes. -/
def pause_campaign (campaign_id : Nat) (store : List ScheduledTweet) : List ScheduledTweet :=
  store.map (fun t =>
    if t.campaign_id = some campaign_id ∧ t.status = Status.scheduled then
      { t with status := Status.cancelled }
    else t)

/-- CampaignService.resume_campaign, restricted to its effect on the
ScheduledTweet rows (campaign_service.py lines 291-298): every row of the
campaign with status 'cancelled' and scheduled_time strictly after
utcnow() is set back to 'scheduled'. -/
def resume_campaign (campaign_id : Nat) (now : Int) (store : List ScheduledTweet) :
    List ScheduledTweet :=
  store.map (fun t =>
    if t.campaign_id = some campaign_id ∧ t.status = Status.cancelled ∧
       now < t.scheduled_time then
      { t with status := Status.scheduled }
    else t)

/-- SQL three-valued comparison `column < cutoff` for a nullable column:
when the column is NULL the comparison is not TRUE, so the row does not
match the filter. -/
def sqlLtSome : Option Int → Int → Bool
  | none, _ => false
  | some x, c => decide (x < c)

/-- models.TrendingHashtag, restricted to what cleanup reads. -/
structure TrendingHashtag where
  hashtag : String
  updated_at : Int
deriving DecidableEq, Repr

/-- cleanup_old_data (tasks.py lines 138-163): deletes the ScheduledTweet
rows matching `posted_at < utcnow - 30 days AND status IN
('posted','failed')` and the TrendingHashtag rows matching
`updated_at < utcnow - 24 hours`; returns the surviving rows. -/
def cleanup_old_data (now : Int) (tweets : List ScheduledTweet)
    (trends : List TrendingHashtag) : List ScheduledTweet × List TrendingHashtag :=
  let cutoff_date := now - 30 * 86400
  let yesterday := now - 24 * 3600
  (tweets.filter (fun t =>
      ¬ (sqlLtSome t.posted_at cutoff_date ∧
         (t.status = Status.posted ∨ t.status = Status.failed))),
   trends.filter (fun tr => ¬ tr.updated_at < yesterday))

/-- models.TweetAnalytics (models.py lines 66-76); engagement_rate is a
Python float, modelled exactly over ℚ. -/
structure TweetAnalytics where
  tweet_id : String
  likes : Nat
  retweets : Nat
  replies : Nat
  impressions : Nat
  engagement_rate : ℚ
  last_updated : Int
  user_id : Nat
  campaign_id : Option Nat
deriving DecidableEq, Repr

/-- The metrics dict returned by twitter_service.get_tweet_analytics; the
.get(key, 0) defaults make every field a number. -/
structure AnalyticsData where
  likes : Nat
  retweets : Nat
  replies : Nat
  impressions : Nat
deriving DecidableEq, Repr

/-- engagement_rate = (total_engagement / impressions * 100) if
impressions > 0 else 0 (analytics_service.py lines 164-169). -/
def engagementRate (d : AnalyticsData) : ℚ :=
  let total_engagement : ℚ := (d.likes : ℚ) + d.retweets + d.replies
  if d.impressions > 0 then total_engagement / (d.impressions : ℚ) * 100 else 0

/-- AnalyticsService.update_tweet_analytics (analytics_service.py lines
155-197): find the first record with the given (tweet_id, user_id); if it
exists overwrite its counters, engagement_rate and last_updated (its
campaign_id is kept); otherwise append a new record. -/
def update_tweet_analytics (tweet_id : String) (d : AnalyticsData) (user_id : Nat)
    (campaign_id : Option Nat) (now : Int) :
    List TweetAnalytics → List TweetAnalytics
  | [] =>
      [{ tweet_id := tweet_id
         likes := d.likes
         retweets := d.retweets
         replies := d.replies
         impressions := d.impressions
         engagement_rate := engagementRate d
         last_updated := now
         user_id := user_id
         campaign_id := campaign_id }]
  | r :: rs =>
      if r.tweet_id = tweet_id ∧ r.user_id = user_id then
        { r with likes := d.likes
                 retweets := d.retweets
                 replies := d.replies
                 impressions := d.impressions
                 engagement_rate := engagementRate d
                 last_updated := now } :: rs
      else
        r :: update_tweet_analytics tweet_id d user_id campaign_id now rs

/-- Number of analytics records with the given (tweet_id, user_id) key. -/
def countKey (tweet_id : String) (user_id : Nat) (store : List TweetAnalytics) : Nat :=
  (store.filter (fun r => r.tweet_id = tweet_id ∧ r.user_id = user_id)).length

/-! ## Helper lemmas about the publish task -/

theorem schedule_tweet_task_events_eq (inp : TaskInput) :
    (schedule_tweet_task inp).events = (scheduleTweetTaskBody inp).events := by
  unfold schedule_tweet_task
  cases h : (scheduleTweetTaskBody inp).raised <;> simp [h]

theorem schedule_tweet_task_finalTweet_eq (inp : TaskInput) :
    (schedule_tweet_task inp).finalTweet = (scheduleTweetTaskBody inp).finalTweet := by
  unfold schedule_tweet_task
  cases h : (scheduleTweetTaskBody inp).raised <;> simp [h]

theorem schedule_tweet_task_retryEscaped_none (inp : TaskInput) :
    (schedule_tweet_task inp).retryEscaped = none := by
  unfold schedule_tweet_task
  cases h : (scheduleTweetTaskBody inp).raised <;> simp [h]

/-- Case analysis on the tweet row as last committed by the task body:
either the row is untouched, or it was marked failed while it was still
scheduled (tweet_id unchanged), or it was marked posted with a tweet id
recorded, or — when the analytics enqueue raised after a successful
publish — it was marked failed with the tweet id still recorded. -/
theorem scheduleTweetTaskBody_finalTweet_cases (inp : TaskInput) (t t1 : ScheduledTweet)
    (ht : inp.tweet = some t)
    (hs : (scheduleTweetTaskBody inp).finalTweet = some t1) :
    t1 = t ∨
    (t.status = Status.scheduled ∧ t1.status = Status.failed ∧ t1.tweet_id = t.tweet_id) ∨
    (t1.status = Status.posted ∧ ∃ tid, t1.tweet_id = some tid) ∨
    ((∃ msg, inp.enqueueError = some msg) ∧ t1.status = Status.failed ∧
      ∃ tid, t1.tweet_id = some tid) := by
  rcases inp with ⟨tw, u, cv, pub, eqe, now, r⟩
  simp only at ht
  subst ht
  simp only [scheduleTweetTaskBody] at hs
  by_cases h1 : t.status ≠ Status.scheduled
  · simp [h1] at hs
    exact Or.inl hs.symm
  · push_neg at h1
    simp [h1] at hs
    cases u with
    | none =>
        simp at hs
        exact Or.inr (Or.inl ⟨h1, by simp [← hs], by simp [← hs]⟩)
    | some u0 =>
        by_cases h2 : u0.has_twitter_auth
        · simp [h2] at hs
          by_cases h3 : cv
          · simp [h3] at hs
            cases pub with
            | success tid =>
                cases eqe with
                | none =>
                    simp at hs
                    exact Or.inr (Or.inr (Or.inl ⟨by simp [← hs], tid, by simp [← hs]⟩))
                | some msg =>
                    simp at hs
                    exact Or.inr (Or.inr (Or.inr
                      ⟨⟨msg, rfl⟩, by simp [← hs], tid, by simp [← hs]⟩))
            | failure err =>
                simp at hs
                exact Or.inr (Or.inl ⟨h1, by simp [← hs], by simp [← hs]⟩)
          · simp [h3] at hs
            exact Or.inr (Or.inl ⟨h1, by simp [← hs], by simp [← hs]⟩)
        · simp [h2] at hs
          exact Or.inr (Or.inl ⟨h1, by simp [← hs], by simp [← hs]⟩)

/-! ## Concrete fixtures used by the closed theorems -/

def tw0 : ScheduledTweet := mkScheduledTweet "hello world" 1000 0 1 (some 7)

def user0 : User :=
  { id := 1, twitter_access_token := some "tok", twitter_access_token_secret := some "sec" }

/-- A run of the publish task in which post_tweet raises a transient
network error on the first attempt (self.request.retries = 0). -/
def transientFailInput : TaskInput :=
  { tweet := some tw0
    user := some user0
    credsValid := true
    publish := PublishResult.failure "network error"
    enqueueError := none
    now := 1000
    retries := 0 }

/-! ## C1 -/

/-- C1: the publish task computes the exponential-backoff retry
(`raise self.retry(countdown=60 * 2 ** retries)` is executed, countdown 60
at attempt 0), but the celery Retry exception is caught by the task's own
outer `except Exception` clause, so no retry ever escapes to the framework
and the tweet is left permanently failed after the first transient error —
contradicting the claimed behaviour of retrying with delay base * 2^attempt
up to max_retries = 3. -/
theorem retry_swallowed_no_retry_scheduled :
    (scheduleTweetTaskBody transientFailInput).raised = some (TaskExc.retry 60) ∧
    (schedule_tweet_task transientFailInput).retryEscaped = none ∧
    ((schedule_tweet_task transientFailInput).finalTweet.map ScheduledTweet.status) =
      some Status.failed ∧
    ((schedule_tweet_task transientFailInput).finalTweet.map ScheduledTweet.error_message) =
      some (some "network error") := by
  refine ⟨rfl, rfl, rfl, rfl⟩

/-! ## C2 -/

/-- The spec's invariant: the external tweet id is set iff the post's
state is 'posted'. -/
def extIdInv (t : ScheduledTweet) : Prop :=
  t.tweet_id.isSome = true ↔ t.status = Status.posted

/-- A run of the publish task in which post_tweet succeeds with tweet id
"id1" but collect_tweet_analytics.apply_async raises. -/
def brokerFailInput : TaskInput :=
  { tweet := some tw0
    user := some user0
    credsValid := true
    publish := PublishResult.success "id1"
    enqueueError := some "enqueue failed"
    now := 1000
    retries := 0 }

/-- The row left by brokerFailInput: the inner except (tasks.py 76-83)
marks the already-posted row failed, with the external id still set. -/
def brokerFailedRow : ScheduledTweet :=
  { tw0 with status := Status.failed
             tweet_id := some "id1"
             posted_at := some 1000
             error_message := some "enqueue failed" }

/-- C2 counterexample: when the analytics enqueue raises after a
successful publish, the task's inner error handler commits the row with
status 'failed' while tweet_id is still set — a reachable post-transition
state with the external id non-null and state not 'posted'. -/
theorem external_id_invariant_violated :
    (schedule_tweet_task brokerFailInput).finalTweet = some brokerFailedRow ∧
    brokerFailedRow.tweet_id = some "id1" ∧
    brokerFailedRow.status = Status.failed ∧
    ¬ extIdInv brokerFailedRow := by
  refine ⟨by decide, rfl, rfl, ?_⟩
  intro h
  exact absurd (h.mp rfl) (by decide)

/-- C2 amended: after creation of a ScheduledTweet, after campaign pause
and campaign resume, and after every publish-task execution in which the
analytics enqueue does not raise, the external tweet id is non-null iff
the status is 'posted'; the invariant is broken only on the path where
the analytics enqueue raises after a successful publish (the inner error
handler then commits status 'failed' with tweet_id still set). -/
theorem external_id_iff_posted
    (c : String) (st ct : Int) (uid : Nat) (cid : Option Nat)
    (inp : TaskInput) (t t1 : ScheduledTweet)
    (cid2 : Nat) (store : List ScheduledTweet) (i : Nat) (now : Int)
    (p p1 r1 : ScheduledTweet) :
    extIdInv (mkScheduledTweet c st ct uid cid) ∧
    (inp.enqueueError = none → inp.tweet = some t → extIdInv t →
      (schedule_tweet_task inp).finalTweet = some t1 → extIdInv t1) ∧
    (store[i]? = some p → extIdInv p →
      (pause_campaign cid2 store)[i]? = some p1 → extIdInv p1) ∧
    (store[i]? = some p → extIdInv p →
      (resume_campaign cid2 now store)[i]? = some r1 → extIdInv r1) := by
  refine ⟨by simp [extIdInv, mkScheduledTweet], ?_, ?_, ?_⟩
  · intro henq ht hinv hft
    rw [schedule_tweet_task_finalTweet_eq] at hft
    rcases scheduleTweetTaskBody_finalTweet_cases inp t t1 ht hft with
      h | ⟨hsch, hfail, hid⟩ | ⟨hpost, tid, hid⟩ | ⟨⟨msg, hmsg⟩, hfail, hid⟩
    · exact h ▸ hinv
    · have hnone : t.tweet_id = none := by
        cases hopt : t.tweet_id with
        | none => rfl
        | some v =>
          exfalso
          have hpost2 : t.status = Status.posted := hinv.mp (by simp [hopt])
          rw [hsch] at hpost2
          cases hpost2
      unfold extIdInv
      rw [hid, hnone, hfail]
      simp
    · unfold extIdInv
      rw [hid, hpost]
      simp
    · rw [henq] at hmsg
      cases hmsg
  · intro hp hinv hp1
    unfold pause_campaign at hp1
    rw [List.getElem?_map, hp] at hp1
    simp only [Option.map_some', Option.some.injEq] at hp1
    subst hp1
    split <;> simp_all [extIdInv]
  · intro hp hinv hr1
    unfold resume_campaign at hr1
    rw [List.getElem?_map, hp] at hr1
    simp only [Option.map_some', Option.some.injEq] at hr1
    subst hr1
    split <;> simp_all [extIdInv]

/-- A run of the publish task in which post_tweet returns tweet id "id1"
and the analytics enqueue succeeds. -/
def successInput : TaskInput :=
  { tweet := some tw0
    user := some user0
    credsValid := true
    publish := PublishResult.success "id1"
    enqueueError := none
    now := 1000
    retries := 0 }

/-- The committed row after a successful publish of tw0. -/
def tw0posted : ScheduledTweet :=
  { tw0 with status := Status.posted
             tweet_id := some "id1"
             posted_at := some 1000
             error_message := none }

/-- Witness for the amended C2: the invariant-preservation theorem
applied to the concrete successful run successInput. -/
theorem external_id_iff_posted_witness : extIdInv tw0posted := by
  have h := external_id_iff_posted "hi" 5 0 1 none successInput tw0 tw0posted
    7 [tw0] 0 1000 tw0 tw0 tw0
  exact h.2.1 rfl rfl (by simp [tw0, mkScheduledTweet, extIdInv]) (by decide)

/-! ## Helper lemmas about the campaign batch scheduler -/

theorem scheduleDayPosts_map_content (frequency day : Nat) (contents : List String) :
    (scheduleDayPosts frequency day contents).map CampaignPost.content =
      contents.take frequency := by
  unfold scheduleDayPosts
  rw [List.map_map]
  have h : (CampaignPost.content ∘ fun p : Nat × String =>
      (⟨p.2, day, hourOffset frequency p.1, p.1⟩ : CampaignPost)) = Prod.snd := rfl
  rw [h, List.enum_map_snd]

/-- The scheduler consumes the generated contents in order, one per slot,
never reusing any: its output contents are exactly the first
frequency * daysLeft generated contents (all of them when fewer were
generated than slots). -/
theorem scheduleLoop_map_content (frequency : Nat) :
    ∀ (daysLeft day : Nat) (contents : List String),
    (scheduleLoop frequency day daysLeft contents).map CampaignPost.content =
      contents.take (frequency * daysLeft) := by
  intro daysLeft
  induction daysLeft with
  | zero => intro day contents; simp [scheduleLoop]
  | succ n ih =>
      intro day contents
      unfold scheduleLoop
      by_cases h : contents.isEmpty
      · rw [List.isEmpty_iff] at h
        subst h
        simp
      · rw [if_neg h, List.map_append, ih, scheduleDayPosts_map_content, ← List.take_add]
        have h2 : frequency + frequency * n = frequency * (n + 1) := by ring
        rw [h2]

/-- Every post placed by the scheduler carries the hour
(slot + 1) * (24 / (frequency + 1)) for a slot index below the daily
frequency. -/
theorem scheduleLoop_hour_slot (frequency : Nat) :
    ∀ (daysLeft day : Nat) (contents : List String) (p : CampaignPost),
    p ∈ scheduleLoop frequency day daysLeft contents →
    p.hour = hourOffset frequency p.slot ∧ p.slot < frequency := by
  intro daysLeft
  induction daysLeft with
  | zero => intro day contents p hp; simp [scheduleLoop] at hp
  | succ n ih =>
      intro day contents p hp
      unfold scheduleLoop at hp
      by_cases h : contents.isEmpty
      · simp [h] at hp
      · rw [if_neg h, List.mem_append] at hp
        rcases hp with hp | hp
        · unfold scheduleDayPosts at hp
          rw [List.mem_map] at hp
          obtain ⟨q, hq, hqp⟩ := hp
          have hlt : q.1 < (contents.take frequency).length := by
            rw [List.mem_enum_iff_getElem?] at hq
            exact (List.getElem?_eq_some.mp hq).1
          have hle : (contents.take frequency).length ≤ frequency := by
            rw [List.length_take]
            exact min_le_left _ _
          subst hqp
          exact ⟨rfl, lt_of_lt_of_le hlt hle⟩
        · exact ih (day + 1) (contents.drop frequency) p hp

/-- The computed posting hour is a valid hour of day:
(i + 1) * (24 / (N + 1)) < 24 for every frequency N ≥ 1 and slot i < N. -/
theorem hourOffset_lt_24 (N i : Nat) (_hN : 1 ≤ N) (hi : i < N) : hourOffset N i < 24 := by
  unfold hourOffset
  have hq : 24 / (N + 1) * (N + 1) ≤ 24 := Nat.div_mul_le_self 24 (N + 1)
  rcases Nat.eq_zero_or_pos (24 / (N + 1)) with h0 | hpos
  · simp [h0]
  · have h1 : (i + 1) * (24 / (N + 1)) ≤ N * (24 / (N + 1)) :=
      Nat.mul_le_mul_right _ (by omega)
    nlinarith

/-! ## C3 -/

/-- C3: the batch scheduler places each day's posts at hours
(slot + 1) * (24 / (frequency + 1)); for frequency 3 over 2 days with 6
generated contents it creates exactly 6 posts, 3 per day, at hours 6, 12
and 18 of each day; and the scheduled contents are always the prefix of
the generated contents of length frequency * days, so scheduling stops
early without reusing content when fewer contents were generated than
slots. -/
theorem campaign_distribution
    (frequency day daysLeft : Nat) (contents : List String) (p : CampaignPost) :
    (schedule_campaign_tweets 3 2 ["t1", "t2", "t3", "t4", "t5", "t6"] [] =
      ([⟨"t1", 0, 6, 0⟩, ⟨"t2", 0, 12, 1⟩, ⟨"t3", 0, 18, 2⟩,
        ⟨"t4", 1, 6, 0⟩, ⟨"t5", 1, 12, 1⟩, ⟨"t6", 1, 18, 2⟩], Except.ok 6)) ∧
    (p ∈ scheduleLoop frequency day daysLeft contents →
      p.hour = hourOffset frequency p.slot ∧ p.slot < frequency) ∧
    ((scheduleLoop frequency day daysLeft contents).map CampaignPost.content =
      contents.take (frequency * daysLeft)) := by
  refine ⟨by rfl, ?_, scheduleLoop_map_content frequency daysLeft day contents⟩
  exact scheduleLoop_hour_slot frequency daysLeft day contents p

/-- Witness for C3 at a concrete post of the concrete 3-per-day, 2-day
schedule. -/
theorem campaign_distribution_witness :
    (⟨"t5", 1, 12, 1⟩ : CampaignPost).hour = hourOffset 3 1 ∧
    (⟨"t5", 1, 12, 1⟩ : CampaignPost).slot < 3 :=
  (campaign_distribution 3 0 2 ["t1", "t2", "t3", "t4", "t5", "t6"]
    ⟨"t5", 1, 12, 1⟩).2.1 (by decide)

/-! ## C9 -/

/-- C9: for every daily frequency N ≥ 1 and slot index i < N the computed
posting hour (i + 1) * (24 / (N + 1)) is strictly below 24 (it is a Nat,
so at least 0), and consequently every post placed by the batch scheduler
carries a valid hour of day, so datetime.replace(hour=...) cannot be
called with an out-of-range hour. -/
theorem posting_hour_in_range
    (N i frequency day daysLeft : Nat) (contents : List String) (p : CampaignPost) :
    (1 ≤ N → i < N → hourOffset N i < 24) ∧
    (p ∈ scheduleLoop frequency day daysLeft contents → p.hour < 24) := by
  refine ⟨hourOffset_lt_24 N i, ?_⟩
  intro hp
  obtain ⟨hh, hs⟩ := scheduleLoop_hour_slot frequency daysLeft day contents p hp
  rw [hh]
  exact hourOffset_lt_24 frequency p.slot (by omega) hs

/-- Witness for C9 at N = 3, i = 2 and a concrete scheduled post. -/
theorem posting_hour_in_range_witness :
    hourOffset 3 2 < 24 ∧ (⟨"a", 0, 12, 0⟩ : CampaignPost).hour < 24 := by
  have h := posting_hour_in_range 3 2 1 0 1 ["a"] ⟨"a", 0, 12, 0⟩
  exact ⟨h.1 (by decide) (by decide), h.2 (by decide)⟩

/-! ## C10 -/

/-- C10: when content generation yields no contents,
schedule_campaign_tweets raises (the store is returned unchanged, zero
posts created) rather than succeeding with count 0; a non-error return is
possible only when at least one content was generated. -/
theorem empty_content_raises (frequency totalDays : Nat) (contents : List String)
    (store : List CampaignPost) (n : Nat) :
    (contents = [] →
      schedule_campaign_tweets frequency totalDays contents store =
        (store, Except.error "Failed to schedule tweets")) ∧
    ((schedule_campaign_tweets frequency totalDays contents store).2 = Except.ok n →
      contents ≠ []) := by
  constructor
  · intro h
    subst h
    rfl
  · intro h hc
    subst hc
    simp [schedule_campaign_tweets] at h

/-- Witness for C10: the empty-content run on an empty store errors and
creates nothing, and a successful 1-post run had non-empty contents. -/
theorem empty_content_raises_witness :
    schedule_campaign_tweets 3 2 [] [] = ([], Except.error "Failed to schedule tweets") ∧
    (["a"] : List String) ≠ [] :=
  ⟨(empty_content_raises 3 2 [] [] 0).1 rfl,
   (empty_content_raises 3 1 ["a"] [] 1).2 (by rfl)⟩

/-! ## C4 -/

/-- The SQL filter `posted_at < cutoff` is TRUE exactly for non-null
values below the cutoff. -/
theorem sqlLtSome_eq_true (o : Option Int) (c : Int) :
    sqlLtSome o c = true ↔ ∃ p, o = some p ∧ p < c := by
  cases o <;> simp [sqlLtSome]

/-- A failed ScheduledTweet that was never posted, created 100 days before
the cleanup run. -/
def oldFailedTweet : ScheduledTweet :=
  { content := "x"
    scheduled_time := 0
    status := Status.failed
    tweet_id := none
    error_message := some "err"
    created_at := 0
    posted_at := none
    user_id := 1
    campaign_id := none }

/-- C4 counterexample: oldFailedTweet is in a terminal state and its
creation time is far older than the 30-day threshold (it was never
posted), yet one cleanup run at day 100 does not delete it — the SQL
filter posted_at < cutoff is never TRUE for a NULL posted_at, and the code
has no creation-time fallback. -/
theorem cleanup_misses_never_posted :
    oldFailedTweet.status = Status.failed ∧
    oldFailedTweet.posted_at = none ∧
    oldFailedTweet.created_at < 100 * 86400 - 30 * 86400 ∧
    (cleanup_old_data (100 * 86400) [oldFailedTweet] []).1 = [oldFailedTweet] := by
  refine ⟨rfl, rfl, by decide, by decide⟩

/-- C4 amended: one cleanup run deletes exactly the ScheduledTweets whose
status is 'posted' or 'failed' and whose posted_at is non-null and older
than the 30-day cutoff; rows that were never posted (posted_at NULL) are
never deleted regardless of their age, and no row with posted_at at or
after the cutoff is deleted. -/
theorem cleanup_deletes_exactly_old_posted
    (now : Int) (tweets : List ScheduledTweet) (trends : List TrendingHashtag)
    (t : ScheduledTweet) :
    t ∈ (cleanup_old_data now tweets trends).1 ↔
      t ∈ tweets ∧
      ¬ ((t.status = Status.posted ∨ t.status = Status.failed) ∧
         ∃ p, t.posted_at = some p ∧ p < now - 30 * 86400) := by
  unfold cleanup_old_data
  rw [List.mem_filter]
  simp only [decide_eq_true_eq, sqlLtSome_eq_true]
  constructor
  · rintro ⟨hm, hc⟩
    exact ⟨hm, fun h => hc ⟨h.2, h.1⟩⟩
  · rintro ⟨hm, hc⟩
    exact ⟨hm, fun h => hc ⟨h.2, h.1⟩⟩

/-! ## C5 -/

/-- The row committed on the missing-auth path (tasks.py lines 35-37). -/
def failedAuthRow (t : ScheduledTweet) : ScheduledTweet :=
  { t with status := Status.failed,
           error_message := some "Twitter authentication required" }

/-- The row committed on the invalid-credentials path (tasks.py 46-48). -/
def failedCredsRow (t : ScheduledTweet) : ScheduledTweet :=
  { t with status := Status.failed,
           error_message := some "Invalid Twitter credentials" }

/-- The row committed on the publish-failure path (tasks.py 78-80). -/
def failedErrRow (t : ScheduledTweet) (err : String) : ScheduledTweet :=
  { t with status := Status.failed, error_message := some err }

/-- The row committed on the success path (tasks.py 61-66). -/
def postedRow (t : ScheduledTweet) (tid : String) (now : Int) : ScheduledTweet :=
  { t with status := Status.posted, tweet_id := some tid,
           posted_at := some now, error_message := none }

/-- The row committed by the inner except when the analytics enqueue
raises after a successful publish (tasks.py 76-80): status failed, error
recorded, tweet_id and posted_at keep their just-committed values. -/
def failedEnqueueRow (t : ScheduledTweet) (tid : String) (now : Int)
    (msg : String) : ScheduledTweet :=
  { t with status := Status.failed, tweet_id := some tid,
           posted_at := some now, error_message := some msg }

/-- The possible event traces of one task body execution: empty, a single
commit, a commit followed by the retry raise, a posted commit followed by
the analytics enqueue carrying the committed tweet id, or (when the
enqueue raises) two commits followed by the retry raise. -/
theorem scheduleTweetTaskBody_events_cases (inp : TaskInput) :
    (scheduleTweetTaskBody inp).events = [] ∨
    (∃ t1, (scheduleTweetTaskBody inp).events = [TEvent.commit t1]) ∨
    (∃ t1 c, (scheduleTweetTaskBody inp).events =
        [TEvent.commit t1, TEvent.retryRaised c]) ∨
    (∃ t1 tid uid cid, (scheduleTweetTaskBody inp).events =
        [TEvent.commit t1, TEvent.enqueueAnalytics tid uid cid 300] ∧
      t1.status = Status.posted ∧ t1.tweet_id = some tid) ∨
    (∃ t1 t2 c, (scheduleTweetTaskBody inp).events =
        [TEvent.commit t1, TEvent.commit t2, TEvent.retryRaised c]) := by
  rcases inp with ⟨tw, u, cv, pub, eqe, now, r⟩
  cases tw with
  | none => exact Or.inl rfl
  | some t =>
      by_cases h1 : t.status = Status.scheduled
      · cases u with
        | none =>
            refine Or.inr (Or.inl ⟨failedAuthRow t, ?_⟩)
            simp [scheduleTweetTaskBody, failedAuthRow, h1]
        | some u0 =>
            by_cases h2 : u0.has_twitter_auth = true
            · by_cases h3 : cv = true
              · cases pub with
                | success tid =>
                    cases eqe with
                    | some msg =>
                        refine Or.inr (Or.inr (Or.inr (Or.inr
                          ⟨postedRow t tid now, failedEnqueueRow t tid now msg,
                           60 * 2 ^ r, ?_⟩)))
                        simp [scheduleTweetTaskBody, postedRow, failedEnqueueRow,
                          h1, h2, h3]
                    | none =>
                        refine Or.inr (Or.inr (Or.inr (Or.inl
                          ⟨postedRow t tid now, tid, u0.id, t.campaign_id,
                           ?_, rfl, rfl⟩)))
                        simp [scheduleTweetTaskBody, postedRow, h1, h2, h3]
                | failure err =>
                    refine Or.inr (Or.inr (Or.inl
                      ⟨failedErrRow t err, 60 * 2 ^ r, ?_⟩))
                    simp [scheduleTweetTaskBody, failedErrRow, h1, h2, h3]
              · refine Or.inr (Or.inl ⟨failedCredsRow t, ?_⟩)
                simp [scheduleTweetTaskBody, failedCredsRow, h1, h2, h3]
            · refine Or.inr (Or.inl ⟨failedAuthRow t, ?_⟩)
              simp [scheduleTweetTaskBody, failedAuthRow, h1, h2]
      · refine Or.inl ?_
        simp [scheduleTweetTaskBody, h1]

/-- C5: in the publish task, an analytics-collection enqueue event at
trace position k always carries the fixed 300-second (5-minute) countdown
and is preceded by a commit of the row in state 'posted' carrying the same
tweet id; on every path where no posted commit happens, no analytics job
is enqueued. -/
theorem analytics_after_posted_commit
    (inp : TaskInput) (k : Nat) (tid : String) (uid : Nat) (cid : Option Nat)
    (cd : Nat) :
    (schedule_tweet_task inp).events[k]? = some (TEvent.enqueueAnalytics tid uid cid cd) →
    cd = 300 ∧
    ∃ j t1, j < k ∧
      (schedule_tweet_task inp).events[j]? = some (TEvent.commit t1) ∧
      t1.status = Status.posted ∧ t1.tweet_id = some tid := by
  rw [schedule_tweet_task_events_eq]
  intro hk
  rcases scheduleTweetTaskBody_events_cases inp with
    h | ⟨t1, h⟩ | ⟨t1, c, h⟩ | ⟨t1, tid0, uid0, cid0, h, hpost, hid⟩ |
    ⟨t1, t2, c, h⟩
  · rw [h] at hk
    simp at hk
  · rw [h] at hk
    match k with
    | 0 => simp at hk
    | n + 1 => simp at hk
  · rw [h] at hk
    match k with
    | 0 => simp at hk
    | 1 => simp at hk
    | n + 2 => simp at hk
  · rw [h] at hk
    match k with
    | 0 => simp at hk
    | 1 =>
        simp only [List.getElem?_cons_succ, List.getElem?_cons_zero, Option.some.injEq] at hk
        cases hk
        refine ⟨rfl, 0, t1, by omega, by simp [h], hpost, ?_⟩
        rw [hid]
    | n + 2 => simp at hk
  · rw [h] at hk
    match k with
    | 0 => simp at hk
    | 1 => simp at hk
    | 2 => simp at hk
    | n + 3 => simp at hk

/-- Witness for C5: the successful run successInput enqueues at trace
position 1, and the posted commit precedes it. -/
theorem analytics_after_posted_commit_witness :
    (300 : Nat) = 300 ∧
    ∃ j t1, j < 1 ∧
      (schedule_tweet_task successInput).events[j]? = some (TEvent.commit t1) ∧
      t1.status = Status.posted ∧ t1.tweet_id = some "id1" :=
  analytics_after_posted_commit successInput 1 "id1" 1 (some 7) 300 (by rfl)

/-! ## C6 -/

/-- A run that fails credential validation before posting. -/
def badCredsInput : TaskInput :=
  { tweet := some tw0
    user := some user0
    credsValid := false
    publish := PublishResult.success "id1"
    enqueueError := none
    now := 1000
    retries := 0 }

/-- C6: on every execution of the publish task in which a failure occurs
that is not a transient publish error — the user row missing, Twitter auth
missing, credential validation failing, or an unexpected exception from
the analytics enqueue after a successful publish — the post's state is
Failed at the end of that same execution, and no retry is ever scheduled
(no Retry exception escapes the task function on any path). -/
theorem unexpected_failure_failed_no_retry
    (inp : TaskInput) (t : ScheduledTweet) (u : User) (tid msg : String) :
    ((schedule_tweet_task inp).retryEscaped = none) ∧
    (inp.tweet = some t → t.status = Status.scheduled →
      (inp.user = none ∨
       (inp.user = some u ∧ ¬ u.has_twitter_auth = true) ∨
       (inp.user = some u ∧ u.has_twitter_auth = true ∧ ¬ inp.credsValid = true) ∨
       (inp.user = some u ∧ u.has_twitter_auth = true ∧ inp.credsValid = true ∧
        inp.publish = PublishResult.success tid ∧ inp.enqueueError = some msg)) →
      ((schedule_tweet_task inp).finalTweet.map ScheduledTweet.status) =
        some Status.failed) := by
  refine ⟨schedule_tweet_task_retryEscaped_none inp, ?_⟩
  rintro ht hsch hdisj
  rcases inp with ⟨tw, uu, cv, pub, eqe, now, r⟩
  simp only at ht
  subst ht
  rw [schedule_tweet_task_finalTweet_eq]
  rcases hdisj with hu | ⟨hu, hauth⟩ | ⟨hu, hauth, hcv⟩ | ⟨hu, hauth, hcv, hpub, henq⟩
  · simp only at hu
    subst hu
    simp [scheduleTweetTaskBody, hsch]
  · simp only at hu
    subst hu
    simp at hauth
    simp [scheduleTweetTaskBody, hsch, hauth]
  · simp only at hu hauth
    subst hu
    simp at hcv
    simp [scheduleTweetTaskBody, hsch, hauth, hcv]
  · simp only at hu hauth hcv hpub henq
    subst hu
    subst hcv
    subst hpub
    subst henq
    simp [scheduleTweetTaskBody, hsch, hauth]

/-- Witness for C6: the invalid-credentials run and the enqueue-failure
run both end Failed, with no retry escaping. -/
theorem unexpected_failure_failed_no_retry_witness :
    ((schedule_tweet_task badCredsInput).finalTweet.map ScheduledTweet.status) =
      some Status.failed ∧
    ((schedule_tweet_task brokerFailInput).finalTweet.map ScheduledTweet.status) =
      some Status.failed :=
  ⟨(unexpected_failure_failed_no_retry badCredsInput tw0 user0 "id1" "m").2 rfl rfl
      (Or.inr (Or.inr (Or.inl ⟨rfl, by decide, by decide⟩))),
   (unexpected_failure_failed_no_retry brokerFailInput tw0 user0 "id1"
      "enqueue failed").2 rfl rfl
      (Or.inr (Or.inr (Or.inr ⟨rfl, by decide, rfl, rfl, rfl⟩)))⟩

/-! ## C7 -/

/-- C7: pausing a campaign cancels exactly its Scheduled posts — posts in
any other state and posts of other campaigns are untouched; resuming sets
back to Scheduled exactly the campaign's Cancelled posts whose scheduled
time is still strictly in the future, leaving past-due Cancelled posts
Cancelled; and neither operation ever changes a post's scheduled time. -/
theorem pause_resume_state_transitions
    (cid : Nat) (now : Int) (store : List ScheduledTweet) (i : Nat)
    (t : ScheduledTweet) (hp : store[i]? = some t) :
    (t.campaign_id = some cid ∧ t.status = Status.scheduled →
      (pause_campaign cid store)[i]? = some { t with status := Status.cancelled }) ∧
    (t.status ≠ Status.scheduled → (pause_campaign cid store)[i]? = some t) ∧
    (t.campaign_id ≠ some cid → (pause_campaign cid store)[i]? = some t) ∧
    (∃ t1, (pause_campaign cid store)[i]? = some t1 ∧
      t1.scheduled_time = t.scheduled_time) ∧
    (t.campaign_id = some cid ∧ t.status = Status.cancelled ∧ now < t.scheduled_time →
      (resume_campaign cid now store)[i]? = some { t with status := Status.scheduled }) ∧
    (t.status = Status.cancelled ∧ t.scheduled_time ≤ now →
      (resume_campaign cid now store)[i]? = some t) ∧
    (t.status ≠ Status.cancelled → (resume_campaign cid now store)[i]? = some t) ∧
    (t.campaign_id ≠ some cid → (resume_campaign cid now store)[i]? = some t) ∧
    (∃ t1, (resume_campaign cid now store)[i]? = some t1 ∧
      t1.scheduled_time = t.scheduled_time) := by
  have hpause : (pause_campaign cid store)[i]? =
      some (if t.campaign_id = some cid ∧ t.status = Status.scheduled then
              { t with status := Status.cancelled }
            else t) := by
    unfold pause_campaign
    rw [List.getElem?_map, hp]
    rfl
  have hresume : (resume_campaign cid now store)[i]? =
      some (if t.campaign_id = some cid ∧ t.status = Status.cancelled ∧
               now < t.scheduled_time then
              { t with status := Status.scheduled }
            else t) := by
    unfold resume_campaign
    rw [List.getElem?_map, hp]
    rfl
  refine ⟨?_, ?_, ?_, ?_, ?_, ?_, ?_, ?_, ?_⟩
  · intro h
    rw [hpause, if_pos h]
  · intro h
    rw [hpause, if_neg (fun hc => h hc.2)]
  · intro h
    rw [hpause, if_neg (fun hc => h hc.1)]
  · refine ⟨_, hpause, ?_⟩
    split <;> rfl
  · intro h
    rw [hresume, if_pos h]
  · intro h
    have hcond : ¬ (t.campaign_id = some cid ∧ t.status = Status.cancelled ∧
        now < t.scheduled_time) := by
      intro hc
      have h1 := h.2
      have h2 := hc.2.2
      omega
    rw [hresume, if_neg hcond]
  · intro h
    rw [hresume, if_neg (fun hc => h hc.2.1)]
  · intro h
    rw [hresume, if_neg (fun hc => h hc.1)]
  · refine ⟨_, hresume, ?_⟩
    split <;> rfl

/-- Witness for C7: pausing campaign 7 cancels the scheduled tweet tw0 and
resuming does not touch a past-due cancelled tweet. -/
theorem pause_resume_state_transitions_witness :
    (pause_campaign 7 [tw0])[0]? = some { tw0 with status := Status.cancelled } ∧
    (resume_campaign 7 2000 [{ tw0 with status := Status.cancelled }])[0]? =
      some { tw0 with status := Status.cancelled } :=
  ⟨(pause_resume_state_transitions 7 0 [tw0] 0 tw0 rfl).1 ⟨rfl, rfl⟩,
   (pause_resume_state_transitions 7 2000 [{ tw0 with status := Status.cancelled }]
      0 { tw0 with status := Status.cancelled } rfl).2.2.2.2.2.1 ⟨rfl, by decide⟩⟩

/-! ## C8 -/

/-- The code's engagement-rate computation coincides with the spec's
formula: (likes + retweets + replies) / impressions * 100, and 0 when
impressions = 0. -/
theorem engagementRate_eq (d : AnalyticsData) :
    engagementRate d =
      (if d.impressions = 0 then 0
       else ((d.likes : ℚ) + d.retweets + d.replies) / (d.impressions : ℚ) * 100) := by
  unfold engagementRate
  rcases Nat.eq_zero_or_pos d.impressions with h | h
  · simp [h]
  · rw [if_pos h, if_neg (by omega)]

theorem countKey_cons (tid : String) (uid : Nat) (r : TweetAnalytics)
    (rs : List TweetAnalytics) :
    countKey tid uid (r :: rs) =
      if r.tweet_id = tid ∧ r.user_id = uid then countKey tid uid rs + 1
      else countKey tid uid rs := by
  unfold countKey
  by_cases h : r.tweet_id = tid ∧ r.user_id = uid <;>
    simp [List.filter_cons, h]

/-- The record written by the overwrite branch of update_tweet_analytics
(analytics_service.py 171-178). -/
def overwrittenRecord (r : TweetAnalytics) (d : AnalyticsData) (now : Int) : TweetAnalytics :=
  { r with likes := d.likes, retweets := d.retweets, replies := d.replies,
           impressions := d.impressions, engagement_rate := engagementRate d,
           last_updated := now }

/-- C8: the analytics update is an idempotent upsert keyed by
(external tweet id, owner id): applying it twice with the same metrics
data gives exactly the store of applying it once (at the later timestamp);
starting from a store without the key it leaves exactly one record for
the key; and in every application — fresh insert or overwrite of an
existing record — the record written carries the given counters and
engagement_rate = (likes + retweets + replies) / impressions * 100,
equal to 0 when impressions = 0. -/
theorem analytics_upsert_idempotent
    (tid : String) (d : AnalyticsData) (uid : Nat) (cid : Option Nat)
    (now1 now2 : Int) (store : List TweetAnalytics) :
    (update_tweet_analytics tid d uid cid now2
        (update_tweet_analytics tid d uid cid now1 store) =
      update_tweet_analytics tid d uid cid now2 store) ∧
    (countKey tid uid store = 0 →
      countKey tid uid (update_tweet_analytics tid d uid cid now1 store) = 1) ∧
    (∃ r, r ∈ update_tweet_analytics tid d uid cid now1 store ∧
        r.tweet_id = tid ∧ r.user_id = uid ∧ r.last_updated = now1 ∧
        r.likes = d.likes ∧ r.retweets = d.retweets ∧ r.replies = d.replies ∧
        r.impressions = d.impressions ∧
        r.engagement_rate =
          (if d.impressions = 0 then 0
           else ((d.likes : ℚ) + d.retweets + d.replies) / (d.impressions : ℚ) * 100)) := by
  refine ⟨?_, ?_, ?_⟩
  · induction store with
    | nil => simp [update_tweet_analytics]
    | cons r rs ih =>
        by_cases h : r.tweet_id = tid ∧ r.user_id = uid
        · simp [update_tweet_analytics, h]
        · simp only [update_tweet_analytics, if_neg h]
          rw [ih]
  · induction store with
    | nil =>
        intro _
        simp [update_tweet_analytics, countKey]
    | cons r rs ih =>
        intro h0
        rw [countKey_cons] at h0
        by_cases h : r.tweet_id = tid ∧ r.user_id = uid
        · rw [if_pos h] at h0
          omega
        · rw [if_neg h] at h0
          simp only [update_tweet_analytics, if_neg h]
          rw [countKey_cons, if_neg h]
          exact ih h0
  · induction store with
    | nil =>
        refine ⟨_, List.mem_singleton.mpr rfl, rfl, rfl, rfl, rfl, rfl, rfl, rfl, ?_⟩
        exact engagementRate_eq d
    | cons r rs ih =>
        by_cases h : r.tweet_id = tid ∧ r.user_id = uid
        · refine ⟨overwrittenRecord r d now1,
            ?_, h.1, h.2, rfl, rfl, rfl, rfl, rfl, engagementRate_eq d⟩
          simp [update_tweet_analytics, overwrittenRecord, h]
        · obtain ⟨r1, hm, hrest⟩ := ih
          exact ⟨r1, by simp [update_tweet_analytics, if_neg h, hm], hrest⟩

/-- Witness for C8: one concrete application to the empty store leaves
exactly one record for the key. -/
theorem analytics_upsert_idempotent_witness :
    countKey "id1" 1 (update_tweet_analytics "id1" ⟨10, 5, 5, 400⟩ 1 (some 7) 50 []) = 1 :=
  (analytics_upsert_idempotent "id1" ⟨10, 5, 5, 400⟩ 1 (some 7) 50 60 []).2.1 rfl
